import Mathlib

/-!
Verification of the water-flow-forces calculation kernel.

The development shallowly embeds the computational core of the repository:

* `src/src/calculations.py` : the drag-coefficient interpolator `Cd`, the
  debris-depth clamp `calculate_actual_debris_depth`, and the force
  calculator `calculate_forces`;
* `src/src/data_processing.py` : the batch layer `process_dataframe`.

Python `decimal.Decimal` values (the sources run at context precision 28)
are modelled as exact rationals `ℚ`; every arithmetic step in the embedded
code paths stays well inside 28 significant digits for the inputs
considered, where `Decimal` arithmetic is exact.  The one irrational
constant the source uses, `Decimal("2").sqrt()`, is the concrete 28-digit
decimal number that call produces, embedded below as the exact rational
`sqrtTwo`.  `Decimal` division by zero raises in Python (the default
context traps `DivisionByZero` and `InvalidOperation`); that is modelled
as an explicit error branch.  Fallible code returns `Except CalcError`.
-/

/-- Leg variants, from `LegType` in `src/src/constants.py` (PIER, BORED_PILE). -/
inductive LegType where
  | pier
  | boredPile
deriving DecidableEq

/-- Leg configuration, from `PierConfig` / `BoredPileConfig` in
`src/src/models.py`: a pier carries a diameter (m), a bored pile carries the
area of one face of the triangular leg (m squared). -/
inductive LegConfig where
  | pierConfig (diameter : ℚ)
  | boredPileConfig (area : ℚ)
deriving DecidableEq

/-- Errors `calculate_forces` can raise.  `typeError` models Python
`TypeError` (a leg config that does not match the leg type, and the
keyword-argument mismatch in the batch layer), `valueError` models Python
`ValueError` (negative scour or pile diameter; missing pile diameter for a
bored pile), `decimalError` models the exceptions the `decimal` module
raises on a division whose divisor is zero (`DivisionByZero` when the
dividend is nonzero, `InvalidOperation` for zero over zero; both abort the
computation, so they are modelled by one constructor). -/
inductive CalcError where
  | typeError (msg : String)
  | valueError (msg : String)
  | decimalError (msg : String)
deriving DecidableEq

/-- The eight outputs of `calculate_forces`, from `ForceResults` in
`src/src/models.py`: forces in kN, application heights in m. -/
structure ForceResults where
  F1 : ℚ
  L1 : ℚ
  F2 : ℚ
  L2 : ℚ
  F3 : ℚ
  L3 : ℚ
  Fd2 : ℚ
  Ld2 : ℚ
deriving DecidableEq

/-- `DEBRIS_SPAN = 20.0` m, from `src/src/constants.py`. -/
def DEBRIS_SPAN : ℚ := 20

/-- The value of `Decimal("2").sqrt()` at the context precision 28 used by
the source (`getcontext().prec = 28` in `src/src/app.py`): the square root
of 2 correctly rounded to 28 significant digits. -/
def sqrtTwo : ℚ := 1414213562373095048801688724 / 10 ^ 27

/-- Body of the drag-coefficient interpolator `Cd`
(`src/src/calculations.py` lines 44-57) as a function of the flow
parameter `V2y = V**2 * y`: the fixed piecewise-linear table from
AS 5100.2 Figure 16.6.4(A), each boundary inclusive on its upper end. -/
def CdOfV2y (V2y : ℚ) : ℚ :=
  if V2y ≤ 40 then 3.4
  else if V2y ≤ 60 then 3.4 - 0.03 * (V2y - 40)
  else if V2y ≤ 85 then 2.8 - 0.018 * (V2y - 60)
  else if V2y ≤ 100 then 2.35 - 0.01 * (V2y - 85)
  else if V2y ≤ 130 then 2.2 - 0.00833 * (V2y - 100)
  else if V2y ≤ 260 then 1.95 - 0.00423 * (V2y - 130)
  else 1.4

/-- `Cd(V, y)` from `src/src/calculations.py` lines 8-57: computes
`V2y = V**2 * y` and applies the piecewise-linear table.  Total: it
returns a value on every input, with no error branch. -/
def Cd (V y : ℚ) : ℚ :=
  CdOfV2y (V ^ 2 * y)

/-- `calculate_actual_debris_depth` from `src/src/calculations.py` lines
60-80: `min(max_debris_depth, max(min_debris_depth, water_depth))`. -/
def calculate_actual_debris_depth
    (water_depth min_debris_depth max_debris_depth : ℚ) : ℚ :=
  min max_debris_depth (max min_debris_depth water_depth)

/-- Message of the `TypeError` raised at `src/src/calculations.py` lines
143 and 183 when a pier leg is given a config without a diameter. -/
def pierConfigMsg : String := "Pier type requires PierConfig with diameter"

/-- Message of the `TypeError` raised at `src/src/calculations.py` line
151 when a bored-pile leg is given a config without an area. -/
def boredConfigMsg : String := "Bored pile type requires BoredPileConfig with area"

/-- Message of the `ValueError` raised at `src/src/calculations.py` line
174 on a negative scour depth or pile diameter.  This is the error the
spec taxonomy calls `InvalidParameter`. -/
def invalidParamMsg : String := "Scour depth and pile diameter must be non-negative."

/-- Message of the `ValueError` raised at `src/src/calculations.py` line
185 when the leg is a bored pile and no pile diameter was supplied.  This
is the error the spec taxonomy calls `MissingParameter`. -/
def missingPileMsg : String := "Pile diameter must be specified for bored pile type"

/-- Above-ground force and height, `src/src/calculations.py` lines
140-157: branch on the leg type, check the config carries the field the
branch reads (the `isinstance`/key test on the `TypedDict`), and compute
the wetted area `Ad`, the force `F1` and the application height `L1`. -/
def aboveGround (leg_type : LegType) (leg_config : LegConfig)
    (water_depth water_velocity cd_pier load_factor : ℚ) :
    Except CalcError (ℚ × ℚ) :=
  match leg_type, leg_config with
  | .pier, .pierConfig column_diameter =>
      let Ad := water_depth * column_diameter
      .ok (0.5 * cd_pier * water_velocity ^ 2 * Ad * load_factor, water_depth / 2)
  | .pier, .boredPileConfig _ => .error (.typeError pierConfigMsg)
  | .boredPile, .boredPileConfig area =>
      let Ad := area * sqrtTwo
      .ok (0.5 * cd_pier * water_velocity ^ 2 * Ad * load_factor,
           2 * water_depth / 3)
  | .boredPile, .pierConfig _ => .error (.typeError boredConfigMsg)

/-- Pile-diameter resolution, `src/src/calculations.py` lines 176-185: a
zero pile diameter falls back to the pier diameter when the leg is a pier
(re-checking the config as the source does) and is an error when the leg
is a bored pile; a nonzero pile diameter is used as given. -/
def resolvePileDiameter (leg_type : LegType) (leg_config : LegConfig)
    (pile_diameter : ℚ) : Except CalcError ℚ :=
  if pile_diameter = 0 then
    match leg_type, leg_config with
    | .pier, .pierConfig column_diameter => .ok column_diameter
    | .pier, .boredPileConfig _ => .error (.typeError pierConfigMsg)
    | .boredPile, _ => .error (.valueError missingPileMsg)
  else
    .ok pile_diameter

/-- `calculate_forces` from `src/src/calculations.py` lines 83-201, in
source order: the above-ground branch (lines 140-157), the debris force
(lines 159-166), the log-impact force (lines 168-171; the division
`water_velocity**2 / (2 * stopping_distance)` raises in `decimal` when
`stopping_distance` is zero, modelled as the `decimalError` branch), the
non-negativity check on scour depth and pile diameter (lines 173-174),
the pile-diameter resolution (lines 176-185), and the scoured-pile force
(lines 187-201).  The Python defaults `pile_diameter = cd_pile =
scour_depth = Decimal("0")` are passed explicitly by every call modelled
here. -/
def calculate_forces (leg_type : LegType) (leg_config : LegConfig)
    (water_depth water_velocity debris_mat_depth cd_pier log_mass
     stopping_distance load_factor pile_diameter cd_pile scour_depth : ℚ) :
    Except CalcError ForceResults :=
  match aboveGround leg_type leg_config water_depth water_velocity cd_pier load_factor with
  | .error e => .error e
  | .ok (F1, L1) =>
    let Adeb := debris_mat_depth * DEBRIS_SPAN
    let C_debris := Cd water_velocity water_depth
    let F2 := 0.5 * C_debris * water_velocity ^ 2 * Adeb * load_factor
    let L2 := max (water_depth - debris_mat_depth / 2) (debris_mat_depth / 2)
    if stopping_distance = 0 then
      .error (.decimalError "division by zero in log-impact acceleration")
    else
      let acceleration := water_velocity ^ 2 / (2 * stopping_distance)
      let F3 := log_mass * acceleration * load_factor / 1000
      let L3 := water_depth
      if scour_depth < 0 ∨ pile_diameter < 0 then
        .error (.valueError invalidParamMsg)
      else
        match resolvePileDiameter leg_type leg_config pile_diameter with
        | .error e => .error e
        | .ok pile_diameter_resolved =>
          let Ad2 := scour_depth * pile_diameter_resolved
          let Fd2 := 0.5 * cd_pile * water_velocity ^ 2 * Ad2 * load_factor
          let Ld2 := -scour_depth / 2
          .ok ⟨F1, L1, F2, L2, F3, L3, Fd2, Ld2⟩

/-!
The batch layer, `process_dataframe` in `src/src/data_processing.py`
lines 11-172.  After `pd.to_numeric(..., errors="coerce")` (lines 60-62)
each required cell of a row is either a number or NaN (a missing or
non-numeric cell has been coerced to NaN), which `CellValue` captures.
The shared per-batch inputs dictionary is captured by `BatchInputs`,
holding exactly the keys the function reads (lines 47, 76-89, 123-141).

The loop body (lines 91-156) checks the three required cells with
`is_invalid_value` and either appends the all-`"N/A"` sentinel record
(lines 97-114) or evaluates the row.  On the evaluation path the source
calls `calculate_forces` with the keyword arguments
`average_water_velocity=...` and `water_surface_velocity_factor=...`
(lines 129-143).  The `calculate_forces` signature in
`src/src/calculations.py` declares neither keyword (its velocity
parameter is named `water_velocity`), so CPython raises `TypeError`
(unexpected keyword argument) at this call for every row that reaches
it, before the function body runs.  The evaluation path is therefore an
error; the conversions and the debris-depth clamp computed before the
call (lines 117-127) are discarded when the exception propagates.

The trailing replacement of `inf`/`-inf`/NaN by `"N/A"` and the string
conversion (lines 158-170) act on the rows the loop produced; every row
that completes the loop is a sentinel row, on which they are the
identity.
-/

/-- A required cell of a batch row after `pd.to_numeric(...,
errors="coerce")`: a number, or NaN standing for a missing, non-numeric
or NaN source cell. -/
inductive CellValue where
  | num (q : ℚ)
  | nan
deriving DecidableEq

/-- `is_invalid_value` from `src/src/data_processing.py` lines 69-73:
`pd.isna` on a coerced numeric cell holds exactly on NaN. -/
def CellValue.isInvalidValue : CellValue → Bool
  | .nan => true
  | .num _ => false

/-- One spreadsheet row: the three event columns the batch layer reads
(peak flood depth, peak velocity, scour) and the remaining original
fields, untouched by the computation. -/
structure BatchRow where
  depth : CellValue
  velocity : CellValue
  scour : CellValue
  extra : List (String × String)
deriving DecidableEq

/-- One computed output cell of the batch: a numeric result or the
`"N/A"` sentinel string. -/
inductive OutVal where
  | num (q : ℚ)
  | notApplicable
deriving DecidableEq

/-- The eight force/location columns appended to an output row. -/
structure RowForces where
  F1 : OutVal
  L1 : OutVal
  F2 : OutVal
  L2 : OutVal
  F3 : OutVal
  L3 : OutVal
  Fd2 : OutVal
  Ld2 : OutVal
deriving DecidableEq

/-- The all-`"N/A"` sentinel record appended for an invalid row
(`src/src/data_processing.py` lines 102-113). -/
def naRowForces : RowForces :=
  ⟨.notApplicable, .notApplicable, .notApplicable, .notApplicable,
   .notApplicable, .notApplicable, .notApplicable, .notApplicable⟩

/-- The shared per-batch parameters `process_dataframe` reads from its
`inputs` dictionary. -/
structure BatchInputs where
  leg_type : LegType
  leg_config : LegConfig
  cd : ℚ
  pile_diameter : ℚ
  cd_pile : ℚ
  min_debris_depth : ℚ
  max_debris_depth : ℚ
  log_mass : ℚ
  stopping_distance : ℚ
  load_factor : ℚ
  water_surface_velocity_factor : ℚ
deriving DecidableEq

/-- Message of the `TypeError` CPython raises at the call on
`src/src/data_processing.py` line 129, whose keyword arguments do not
match the `calculate_forces` signature in `src/src/calculations.py`. -/
def unexpectedKeywordMsg : String :=
  "calculate_forces got an unexpected keyword argument average_water_velocity"

/-- The loop body of `process_dataframe` (`src/src/data_processing.py`
lines 91-156) for one row: an invalid required cell yields the sentinel
record; a fully numeric row reaches the `calculate_forces` call of line
129, which raises `TypeError` because of the keyword mismatch described
above, whatever the shared inputs are. -/
def processRow (inputs : BatchInputs) (row : BatchRow) :
    Except CalcError RowForces :=
  if row.depth.isInvalidValue || row.velocity.isInvalidValue
      || row.scour.isInvalidValue then
    .ok naRowForces
  else
    let _ := calculate_actual_debris_depth
      (match row.depth with | .num q => q | .nan => 0)
      inputs.min_debris_depth inputs.max_debris_depth
    .error (.typeError unexpectedKeywordMsg)

/-- `process_dataframe` from `src/src/data_processing.py` lines 11-172:
iterate the rows in order; a raised exception propagates and aborts the
batch; otherwise pair each original row with its computed record
(`pd.concat(..., axis=1)` appends the computed fields to the untouched
original fields, preserving row order). -/
def process_dataframe (inputs : BatchInputs) (rows : List BatchRow) :
    Except CalcError (List (BatchRow × RowForces)) :=
  rows.mapM fun row => (processRow inputs row).map fun forces => (row, forces)

/-!
Concrete example data used by closed theorems below.
-/

/-- Result of the pier run at the default slider values (diameter 2.5 m,
depth 8 m, velocity 3 m/s, debris depth 2 m, cd 0.7, log mass 10000 kg,
stopping distance 0.025 m, load factor 1.3, pile diameter 2.5 m, cd pile
0.7, scour 1 m); the fields hold the computed numbers. -/
def c1Out : ForceResults :=
  ⟨819/10, 4, 604656/1000, 7, 2340, 8, 102375/10000, -(1/2)⟩

/-- Result of a pier run at raw water depth 10 m, velocity 3 m/s, debris
depth clamped to 3 m with bounds 1.2 m and 3 m, cd 0.7, log mass 0,
stopping distance 1 m, load factor 1, pile diameter 2.5 m, cd pile 0.7,
scour 0; the flow parameter is 90, so the debris coefficient is 2.3. -/
def c9OutA : ForceResults :=
  ⟨315/4, 5, 621, 17/2, 0, 10, 0, 0⟩

/-- Same run as `c9OutA` except the raw water depth is 20 m; the flow
parameter is 180, so the debris coefficient is 1.7385. -/
def c9OutB : ForceResults :=
  ⟨315/2, 10, 469395/1000, 37/2, 0, 20, 0, 0⟩

/-- Same run as `c9OutA` except the raw water depth is 30 m; the flow
parameter is 270, past the last breakpoint, so the coefficient is 1.4. -/
def c9WitOutA : ForceResults :=
  ⟨945/4, 15, 378, 57/2, 0, 30, 0, 0⟩

/-- Same run as `c9WitOutA` except the raw water depth is 40 m; the flow
parameter is 360, also past the last breakpoint. -/
def c9WitOutB : ForceResults :=
  ⟨315, 20, 378, 77/2, 0, 40, 0, 0⟩

/-- Shared batch inputs: pier of diameter 2.5 m, cd 0.7, pile diameter
2.5 m, cd pile 0.7, debris bounds 1.2 m and 3 m, log mass 10000 kg,
stopping distance 0.025 m, load factor 1.3, surface velocity factor 1.4. -/
def exInputs : BatchInputs :=
  ⟨.pier, .pierConfig (5/2), 7/10, 5/2, 7/10, 6/5, 3, 10000, 1/40, 13/10, 14/10⟩

/-- A fully numeric row: depth 8 m, velocity 3 m/s, scour 1 m. -/
def exValidRow : BatchRow := ⟨.num 8, .num 3, .num 1, [("Structure ID", "T1")]⟩

/-- A row whose velocity cell is NaN (missing or non-numeric source cell). -/
def exNanRow : BatchRow := ⟨.num 8, .nan, .num 1, [("Structure ID", "T2")]⟩

/-- A fully numeric row with the engineer-provided test values
depth 1.482 m, velocity 1.944 m/s, scour 0.485 m. -/
def exValidRow2 : BatchRow :=
  ⟨.num (1482/1000), .num (1944/1000), .num (485/1000), [("Structure ID", "T3")]⟩

/-- A fully numeric row: depth 5 m, velocity 2 m/s, scour 0 m. -/
def exValidRow3 : BatchRow := ⟨.num 5, .num 2, .num 0, [("Structure ID", "T4")]⟩

/-!
Helper lemmas.
-/

theorem resolvePileDiameter_pier (d pd : ℚ) :
    resolvePileDiameter .pier (.pierConfig d) pd = .ok (if pd = 0 then d else pd) := by
  unfold resolvePileDiameter
  split <;> simp_all

theorem cf_pier_eq (d wd v dmd cdp lm sd lf pd cdl scd : ℚ)
    (hsd : ¬ sd = 0) (hneg : ¬ (scd < 0 ∨ pd < 0)) :
    calculate_forces .pier (.pierConfig d) wd v dmd cdp lm sd lf pd cdl scd
      = .ok ⟨0.5 * cdp * v ^ 2 * (wd * d) * lf, wd / 2,
             0.5 * Cd v wd * v ^ 2 * (dmd * DEBRIS_SPAN) * lf,
             max (wd - dmd / 2) (dmd / 2),
             lm * (v ^ 2 / (2 * sd)) * lf / 1000, wd,
             0.5 * cdl * v ^ 2 * (scd * (if pd = 0 then d else pd)) * lf,
             -scd / 2⟩ := by
  unfold calculate_forces
  dsimp only [aboveGround]
  rw [resolvePileDiameter_pier, if_neg hsd, if_neg hneg]

theorem cf_pier_ok (d wd v dmd cdp lm sd lf pd cdl scd : ℚ) (r : ForceResults)
    (h : calculate_forces .pier (.pierConfig d) wd v dmd cdp lm sd lf pd cdl scd
        = .ok r) :
    r = ⟨0.5 * cdp * v ^ 2 * (wd * d) * lf, wd / 2,
         0.5 * Cd v wd * v ^ 2 * (dmd * DEBRIS_SPAN) * lf,
         max (wd - dmd / 2) (dmd / 2),
         lm * (v ^ 2 / (2 * sd)) * lf / 1000, wd,
         0.5 * cdl * v ^ 2 * (scd * (if pd = 0 then d else pd)) * lf,
         -scd / 2⟩ := by
  unfold calculate_forces at h
  rw [resolvePileDiameter_pier] at h
  dsimp only [aboveGround] at h
  split at h
  · exact absurd h (by simp)
  · split at h
    · exact absurd h (by simp)
    · injection h with h1
      exact h1.symm

theorem cf_bored_ok (a wd v dmd cdp lm sd lf pd cdl scd : ℚ) (r : ForceResults)
    (h : calculate_forces .boredPile (.boredPileConfig a) wd v dmd cdp lm sd lf pd cdl scd
        = .ok r) :
    r = ⟨0.5 * cdp * v ^ 2 * (a * sqrtTwo) * lf, 2 * wd / 3,
         0.5 * Cd v wd * v ^ 2 * (dmd * DEBRIS_SPAN) * lf,
         max (wd - dmd / 2) (dmd / 2),
         lm * (v ^ 2 / (2 * sd)) * lf / 1000, wd,
         0.5 * cdl * v ^ 2 * (scd * pd) * lf,
         -scd / 2⟩ := by
  unfold calculate_forces at h
  dsimp only [aboveGround] at h
  split at h
  · exact absurd h (by simp)
  · split at h
    · exact absurd h (by simp)
    · split at h
      · exact absurd h (by simp)
      · rename_i pdr heq
        unfold resolvePileDiameter at heq
        split at heq
        · exact absurd heq (by simp)
        · injection heq with h2
          subst h2
          injection h with h1
          exact h1.symm

theorem cf_mismatch_pier (a wd v dmd cdp lm sd lf pd cdl scd : ℚ) :
    calculate_forces .pier (.boredPileConfig a) wd v dmd cdp lm sd lf pd cdl scd
      = .error (.typeError pierConfigMsg) := rfl

theorem cf_mismatch_bored (d wd v dmd cdp lm sd lf pd cdl scd : ℚ) :
    calculate_forces .boredPile (.pierConfig d) wd v dmd cdp lm sd lf pd cdl scd
      = .error (.typeError boredConfigMsg) := rfl

theorem cf_ok_F2 (lt : LegType) (lc : LegConfig)
    (wd v dmd cdp lm sd lf pd cdl scd : ℚ) (r : ForceResults)
    (h : calculate_forces lt lc wd v dmd cdp lm sd lf pd cdl scd = .ok r) :
    r.F2 = 0.5 * Cd v wd * v ^ 2 * (dmd * DEBRIS_SPAN) * lf := by
  cases lt <;> cases lc
  · rw [cf_pier_ok _ _ _ _ _ _ _ _ _ _ _ _ h]
  · rw [cf_mismatch_pier] at h
    exact absurd h (by simp)
  · rw [cf_mismatch_bored] at h
    exact absurd h (by simp)
  · rw [cf_bored_ok _ _ _ _ _ _ _ _ _ _ _ _ h]

theorem CdOfV2y_of_le_40 {x : ℚ} (h : x ≤ 40) : CdOfV2y x = 3.4 := by
  unfold CdOfV2y
  rw [if_pos h]

theorem CdOfV2y_of_gt_260 {x : ℚ} (h : 260 < x) : CdOfV2y x = 1.4 := by
  unfold CdOfV2y
  split_ifs <;> first | rfl | linarith

set_option maxHeartbeats 1600000 in
theorem CdOfV2y_antitone {x1 x2 : ℚ} (h : x1 ≤ x2) : CdOfV2y x2 ≤ CdOfV2y x1 := by
  unfold CdOfV2y
  split_ifs <;> linarith

theorem CdOfV2y_mem {x : ℚ} : 1.4 ≤ CdOfV2y x ∧ CdOfV2y x ≤ 3.4 := by
  unfold CdOfV2y
  split_ifs <;> exact ⟨by linarith, by linarith⟩

theorem clamp_pinned_at_max {wd mind maxd : ℚ} (h : maxd ≤ wd) :
    calculate_actual_debris_depth wd mind maxd = maxd := by
  unfold calculate_actual_debris_depth
  exact min_eq_left (le_trans h (le_max_right _ _))

/-!
Claim theorems.
-/

/-- C1: for every leg geometry and all numeric inputs, a successful
`calculate_forces` run computes the above-ground water-flow force as
`F1 = 0.5 * cd_pier * water_velocity^2 * Ad * load_factor`, with the
wetted area and application height following the leg variant: for a pier
`Ad = water_depth * diameter` and `L1 = water_depth / 2`; for a bored
pile `Ad = area * sqrt(2)` (the source computes the square root of 2 as
the 28-digit decimal `sqrtTwo`) and `L1 = (2/3) * water_depth`. -/
theorem c1_above_ground_force (wd v dmd cdp lm sd lf pd cdl scd d a : ℚ) :
    (∀ r : ForceResults,
       calculate_forces .pier (.pierConfig d) wd v dmd cdp lm sd lf pd cdl scd
           = .ok r →
       r.F1 = 0.5 * cdp * v ^ 2 * (wd * d) * lf ∧ r.L1 = wd / 2) ∧
    (∀ r : ForceResults,
       calculate_forces .boredPile (.boredPileConfig a) wd v dmd cdp lm sd lf pd cdl scd
           = .ok r →
       r.F1 = 0.5 * cdp * v ^ 2 * (a * sqrtTwo) * lf ∧ r.L1 = 2 * wd / 3) := by
  constructor
  · intro r h
    rw [cf_pier_ok _ _ _ _ _ _ _ _ _ _ _ _ h]
    exact ⟨rfl, rfl⟩
  · intro r h
    rw [cf_bored_ok _ _ _ _ _ _ _ _ _ _ _ _ h]
    exact ⟨rfl, rfl⟩

/-- C1 witness: the pier run behind `c1Out` succeeds and its `F1` and
`L1` equal the claimed formulas at depth 8 m, velocity 3 m/s, diameter
2.5 m, cd 0.7, load factor 1.3. -/
theorem c1_above_ground_force_witness :
    calculate_forces .pier (.pierConfig (5/2)) 8 3 2 (7/10) 10000 (1/40)
        (13/10) (5/2) (7/10) 1 = .ok c1Out ∧
    c1Out.F1 = 0.5 * (7/10) * 3 ^ 2 * (8 * (5/2)) * (13/10) ∧
    c1Out.L1 = 8 / 2 := by
  have h : calculate_forces .pier (.pierConfig (5/2)) 8 3 2 (7/10) 10000
      (1/40) (13/10) (5/2) (7/10) 1 = .ok c1Out := by
    rw [cf_pier_eq _ _ _ _ _ _ _ _ _ _ _ (by norm_num) (by norm_num)]
    norm_num [c1Out, Cd, CdOfV2y, DEBRIS_SPAN, max_def]
  exact ⟨h, (c1_above_ground_force 8 3 2 (7/10) 10000 (1/40) (13/10) (5/2)
      (7/10) 1 (5/2) 20).1 c1Out h⟩

/-- C2: the interpolator `Cd` is total (it is a plain function into `ℚ`,
with no error branch) and returns the piecewise-linear value of the
table on `x = V^2 * y`, every segment boundary inclusive on its upper
end. -/
theorem c2_cd_piecewise (V y : ℚ) :
    (V ^ 2 * y ≤ 40 → Cd V y = 3.4) ∧
    (40 < V ^ 2 * y → V ^ 2 * y ≤ 60 →
        Cd V y = 3.4 - 0.03 * (V ^ 2 * y - 40)) ∧
    (60 < V ^ 2 * y → V ^ 2 * y ≤ 85 →
        Cd V y = 2.8 - 0.018 * (V ^ 2 * y - 60)) ∧
    (85 < V ^ 2 * y → V ^ 2 * y ≤ 100 →
        Cd V y = 2.35 - 0.01 * (V ^ 2 * y - 85)) ∧
    (100 < V ^ 2 * y → V ^ 2 * y ≤ 130 →
        Cd V y = 2.2 - 0.00833 * (V ^ 2 * y - 100)) ∧
    (130 < V ^ 2 * y → V ^ 2 * y ≤ 260 →
        Cd V y = 1.95 - 0.00423 * (V ^ 2 * y - 130)) ∧
    (260 < V ^ 2 * y → Cd V y = 1.4) := by
  unfold Cd CdOfV2y
  refine ⟨?_, ?_, ?_, ?_, ?_, ?_, ?_⟩ <;> intros <;> split_ifs <;> linarith

/-- C2 witness: at V = 7, y = 1 the flow parameter is 49, inside the
second segment, and `Cd` returns the second segment value. -/
theorem c2_cd_piecewise_witness :
    (40 : ℚ) < 7 ^ 2 * 1 ∧ (7 : ℚ) ^ 2 * 1 ≤ 60 ∧
    Cd 7 1 = 3.4 - 0.03 * ((7 : ℚ) ^ 2 * 1 - 40) :=
  ⟨by norm_num, by norm_num,
   (c2_cd_piecewise 7 1).2.1 (by norm_num) (by norm_num)⟩

/-- C3 (code bug): every fully numeric row reaching the
`calculate_forces` call of `src/src/data_processing.py` line 129 makes
the batch fail with the keyword-mismatch `TypeError` instead of
producing the eight computed outputs claimed. -/
theorem c3_batch_keyword_mismatch :
    (∀ q1 q2 q3 : ℚ, ∀ extra : List (String × String),
       process_dataframe exInputs [⟨.num q1, .num q2, .num q3, extra⟩]
         = .error (.typeError unexpectedKeywordMsg)) ∧
    process_dataframe exInputs [exValidRow]
      = .error (.typeError unexpectedKeywordMsg) :=
  ⟨fun _ _ _ _ => rfl, rfl⟩

/-- C4: with a matching leg config and a nonzero stopping distance (the
spec data model requires a positive one), `calculate_forces` fails with
the `InvalidParameter` error (`ValueError`, message `invalidParamMsg`)
whenever `scour_depth < 0` or `pile_diameter < 0`; fails with the
`MissingParameter` error (`ValueError`, message `missingPileMsg`) when
the leg is a bored pile and the pile diameter is zero/unset; and
succeeds for a pier with pile diameter zero/unset, substituting the pier
diameter into the scoured area `Ad2 = scour_depth * pile_diameter`. -/
theorem c4_error_handling (wd v dmd cdp lm sd lf pd cdl scd d a : ℚ)
    (hsd : sd ≠ 0) :
    ((scd < 0 ∨ pd < 0) →
       calculate_forces .pier (.pierConfig d) wd v dmd cdp lm sd lf pd cdl scd
           = .error (.valueError invalidParamMsg) ∧
       calculate_forces .boredPile (.boredPileConfig a) wd v dmd cdp lm sd lf pd cdl scd
           = .error (.valueError invalidParamMsg)) ∧
    (0 ≤ scd →
       calculate_forces .boredPile (.boredPileConfig a) wd v dmd cdp lm sd lf 0 cdl scd
           = .error (.valueError missingPileMsg)) ∧
    (0 ≤ scd → ∃ r : ForceResults,
       calculate_forces .pier (.pierConfig d) wd v dmd cdp lm sd lf 0 cdl scd
           = .ok r ∧
       r.Fd2 = 0.5 * cdl * v ^ 2 * (scd * d) * lf) := by
  refine ⟨fun hneg => ⟨?_, ?_⟩, fun hscd => ?_, fun hscd => ?_⟩
  · unfold calculate_forces
    dsimp only [aboveGround]
    rw [if_neg hsd, if_pos hneg]
  · unfold calculate_forces
    dsimp only [aboveGround]
    rw [if_neg hsd, if_pos hneg]
  · have hcond : ¬ (scd < 0 ∨ (0 : ℚ) < 0) := by
      simp only [not_or, not_lt]
      exact ⟨hscd, le_refl 0⟩
    unfold calculate_forces
    dsimp only [aboveGround]
    rw [if_neg hsd, if_neg hcond,
        show resolvePileDiameter .boredPile (.boredPileConfig a) 0
            = .error (.valueError missingPileMsg) from by
          unfold resolvePileDiameter
          simp]
  · have hcond : ¬ (scd < 0 ∨ (0 : ℚ) < 0) := by
      simp only [not_or, not_lt]
      exact ⟨hscd, le_refl 0⟩
    refine ⟨⟨0.5 * cdp * v ^ 2 * (wd * d) * lf, wd / 2,
             0.5 * Cd v wd * v ^ 2 * (dmd * DEBRIS_SPAN) * lf,
             max (wd - dmd / 2) (dmd / 2),
             lm * (v ^ 2 / (2 * sd)) * lf / 1000, wd,
             0.5 * cdl * v ^ 2 * (scd * d) * lf, -scd / 2⟩, ?_, rfl⟩
    unfold calculate_forces
    dsimp only [aboveGround]
    rw [if_neg hsd, if_neg hcond,
        show resolvePileDiameter .pier (.pierConfig d) 0 = .ok d from by
          unfold resolvePileDiameter
          simp]

/-- C4 witness: a pier run with scour depth -1 fails with the
`InvalidParameter` message, and a bored-pile run with pile diameter 0
fails with the `MissingParameter` message. -/
theorem c4_error_handling_witness :
    calculate_forces .pier (.pierConfig (5/2)) 8 3 2 (7/10) 10000 (1/40)
        (13/10) 1 (7/10) (-1) = .error (.valueError invalidParamMsg) ∧
    calculate_forces .boredPile (.boredPileConfig 20) 8 3 2 (7/10) 10000
        (1/40) (13/10) 0 (7/10) 1 = .error (.valueError missingPileMsg) :=
  ⟨((c4_error_handling 8 3 2 (7/10) 10000 (1/40) (13/10) 1 (7/10) (-1)
        (5/2) 20 (by norm_num)).1 (Or.inl (by norm_num))).1,
   (c4_error_handling 8 3 2 (7/10) 10000 (1/40) (13/10) 0 (7/10) 1 (5/2) 20
        (by norm_num)).2.1 (by norm_num)⟩

/-- C5 (code bug): an all-invalid batch does retain each invalid row in
position with the sentinel record and its original fields unchanged,
but as soon as the batch also holds a fully numeric row the whole call
fails with the keyword-mismatch `TypeError`, so the invalid row gets no
retained output at all, contrary to the claim. -/
theorem c5_sentinel_row_vs_abort :
    process_dataframe exInputs [exNanRow] = .ok [(exNanRow, naRowForces)] ∧
    (∀ extra : List (String × String),
       process_dataframe exInputs [⟨.num 8, .nan, .num 1, extra⟩]
         = .ok [(⟨.num 8, .nan, .num 1, extra⟩, naRowForces)]) ∧
    process_dataframe exInputs [exValidRow2, exNanRow]
      = .error (.typeError unexpectedKeywordMsg) :=
  ⟨rfl, fun _ => rfl, rfl⟩

/-- C6 (code bug): batch evaluation is aborted by the keyword-mismatch
`TypeError` at the first row it tries to evaluate, so the remaining rows
are never evaluated and the inf/NaN replacement step never sees a
computed value. -/
theorem c6_batch_abort_on_numeric_rows :
    process_dataframe exInputs [exValidRow3, exValidRow2]
      = .error (.typeError unexpectedKeywordMsg) ∧
    process_dataframe exInputs [exNanRow, exValidRow3, exNanRow]
      = .error (.typeError unexpectedKeywordMsg) :=
  ⟨rfl, rfl⟩

/-- C7 counterexample: at the breakpoint `x = 260` (reached by V = 1,
y = 260) the interpolator takes the last linear segment and returns
`1.95 - 0.00423 * 130 = 1.4001`, not `1.4`. -/
theorem c7_boundary_260_counterexample :
    (1 : ℚ) ^ 2 * 260 = 260 ∧ Cd 1 260 = 1.4001 ∧ (1.4001 : ℚ) ≠ 1.4 := by
  refine ⟨by norm_num, ?_, by norm_num⟩
  norm_num [Cd, CdOfV2y]

/-- C7 (amended): `Cd` returns exactly `3.4` whenever `x ≤ 40` and
exactly `1.4` whenever `x > 260`; at `x` exactly `260` it returns the
last linear segment endpoint `1.4001`, not `1.4`. -/
theorem c7_cd_extremes (V y : ℚ) :
    (V ^ 2 * y ≤ 40 → Cd V y = 3.4) ∧
    (260 < V ^ 2 * y → Cd V y = 1.4) ∧
    (V ^ 2 * y = 260 → Cd V y = 1.4001) := by
  refine ⟨fun h => CdOfV2y_of_le_40 h, fun h => CdOfV2y_of_gt_260 h, fun h => ?_⟩
  unfold Cd
  rw [h]
  norm_num [CdOfV2y]

/-- C7 witness: the amended claim at x = 40 (V = 2, y = 10) and at
x = 261 (V = 1, y = 261). -/
theorem c7_cd_extremes_witness :
    (2 : ℚ) ^ 2 * 10 ≤ 40 ∧ Cd 2 10 = 3.4 ∧
    (260 : ℚ) < 1 ^ 2 * 261 ∧ Cd 1 261 = 1.4 :=
  ⟨by norm_num, (c7_cd_extremes 2 10).1 (by norm_num), by norm_num,
   (c7_cd_extremes 1 261).2.1 (by norm_num)⟩

/-- C8 counterexample: with min_debris_depth = 3 and max_debris_depth =
1 (a pair with min above max) and water_depth = 2, the clamp returns 1,
which falls below min_debris_depth, so the clamped value does not lie in
the claimed closed interval. -/
theorem c8_clamp_counterexample :
    calculate_actual_debris_depth 2 3 1 = 1 ∧
    ¬ ((3 : ℚ) ≤ calculate_actual_debris_depth 2 3 1) := by
  have h : calculate_actual_debris_depth 2 3 1 = 1 := by
    unfold calculate_actual_debris_depth
    rw [max_eq_left (by norm_num), min_eq_left (by norm_num)]
  refine ⟨h, ?_⟩
  rw [h]
  norm_num

/-- C8 (amended): the clamped debris depth never exceeds
`max_debris_depth` for every pair of bounds, and whenever
`min_debris_depth ≤ max_debris_depth` it also never falls below
`min_debris_depth`, so it lies in the closed interval. -/
theorem c8_clamp_amended (wd mind maxd : ℚ) :
    calculate_actual_debris_depth wd mind maxd ≤ maxd ∧
    (mind ≤ maxd → mind ≤ calculate_actual_debris_depth wd mind maxd) := by
  unfold calculate_actual_debris_depth
  exact ⟨min_le_left _ _, fun h => le_min h (le_max_left _ _)⟩

/-- C8 witness: the bounds 1.2 and 3 at water depth 8. -/
theorem c8_clamp_amended_witness :
    calculate_actual_debris_depth 8 (6/5) 3 ≤ 3 ∧ (6/5 : ℚ) ≤ 3 ∧
    (6/5 : ℚ) ≤ calculate_actual_debris_depth 8 (6/5) 3 :=
  ⟨(c8_clamp_amended 8 (6/5) 3).1, by norm_num,
   (c8_clamp_amended 8 (6/5) 3).2 (by norm_num)⟩

/-- C9 counterexample: pier runs at raw depths 10 m and 20 m, both large
enough to pin the clamped debris depth at the maximum 3 m, still return
different `F2` (621 versus 469.395), because the coefficient
`Cd(3, depth)` differs between the two depths. -/
theorem c9_f2_counterexample :
    calculate_actual_debris_depth 10 (6/5) 3 = 3 ∧
    calculate_actual_debris_depth 20 (6/5) 3 = 3 ∧
    calculate_forces .pier (.pierConfig (5/2)) 10 3
        (calculate_actual_debris_depth 10 (6/5) 3) (7/10) 0 1 1 (5/2) (7/10) 0
      = .ok c9OutA ∧
    calculate_forces .pier (.pierConfig (5/2)) 20 3
        (calculate_actual_debris_depth 20 (6/5) 3) (7/10) 0 1 1 (5/2) (7/10) 0
      = .ok c9OutB ∧
    c9OutA.F2 = 621 ∧ c9OutB.F2 = 469.395 ∧ c9OutA.F2 ≠ c9OutB.F2 := by
  have hA : calculate_actual_debris_depth 10 (6/5) 3 = 3 := by
    unfold calculate_actual_debris_depth
    rw [max_eq_right (by norm_num), min_eq_left (by norm_num)]
  have hB : calculate_actual_debris_depth 20 (6/5) 3 = 3 := by
    unfold calculate_actual_debris_depth
    rw [max_eq_right (by norm_num), min_eq_left (by norm_num)]
  refine ⟨hA, hB, ?_, ?_, by norm_num [c9OutA], by norm_num [c9OutB],
      by norm_num [c9OutA, c9OutB]⟩
  · rw [hA, cf_pier_eq _ _ _ _ _ _ _ _ _ _ _ (by norm_num) (by norm_num)]
    norm_num [c9OutA, Cd, CdOfV2y, DEBRIS_SPAN, max_def]
  · rw [hB, cf_pier_eq _ _ _ _ _ _ _ _ _ _ _ (by norm_num) (by norm_num)]
    norm_num [c9OutB, Cd, CdOfV2y, DEBRIS_SPAN, max_def]

/-- C9 (amended): for a fixed velocity, leg geometry, debris bounds and
load parameters, two raw water depths both large enough to pin the
clamped debris depth at `max_debris_depth` and both large enough that
the flow parameter `V^2 * depth` exceeds the last breakpoint 260 (so the
debris coefficient is pinned at 1.4) yield identical `F2`; without the
latter condition `F2` varies with depth through `Cd(V, depth)`. -/
theorem c9_f2_saturated_invariance (lt : LegType) (lc : LegConfig)
    (v wd1 wd2 mind maxd cdp lm sd lf pd cdl scd : ℚ) (r1 r2 : ForceResults)
    (hw1 : maxd ≤ wd1) (hw2 : maxd ≤ wd2)
    (hx1 : 260 < v ^ 2 * wd1) (hx2 : 260 < v ^ 2 * wd2)
    (h1 : calculate_forces lt lc wd1 v
        (calculate_actual_debris_depth wd1 mind maxd) cdp lm sd lf pd cdl scd
        = .ok r1)
    (h2 : calculate_forces lt lc wd2 v
        (calculate_actual_debris_depth wd2 mind maxd) cdp lm sd lf pd cdl scd
        = .ok r2) :
    r1.F2 = r2.F2 := by
  rw [cf_ok_F2 _ _ _ _ _ _ _ _ _ _ _ _ _ h1,
      cf_ok_F2 _ _ _ _ _ _ _ _ _ _ _ _ _ h2,
      clamp_pinned_at_max hw1, clamp_pinned_at_max hw2]
  unfold Cd
  rw [CdOfV2y_of_gt_260 hx1, CdOfV2y_of_gt_260 hx2]

/-- C9 witness: pier runs at depths 30 m and 40 m with velocity 3 m/s
(flow parameters 270 and 360, both past 260; both depths past the
maximum debris depth 3 m) succeed and have equal `F2`. -/
theorem c9_f2_saturated_invariance_witness :
    calculate_forces .pier (.pierConfig (5/2)) 30 3
        (calculate_actual_debris_depth 30 (6/5) 3) (7/10) 0 1 1 (5/2) (7/10) 0
      = .ok c9WitOutA ∧
    calculate_forces .pier (.pierConfig (5/2)) 40 3
        (calculate_actual_debris_depth 40 (6/5) 3) (7/10) 0 1 1 (5/2) (7/10) 0
      = .ok c9WitOutB ∧
    c9WitOutA.F2 = c9WitOutB.F2 := by
  have hA : calculate_actual_debris_depth 30 (6/5) 3 = 3 := by
    unfold calculate_actual_debris_depth
    rw [max_eq_right (by norm_num), min_eq_left (by norm_num)]
  have hB : calculate_actual_debris_depth 40 (6/5) 3 = 3 := by
    unfold calculate_actual_debris_depth
    rw [max_eq_right (by norm_num), min_eq_left (by norm_num)]
  have hcfA : calculate_forces .pier (.pierConfig (5/2)) 30 3
      (calculate_actual_debris_depth 30 (6/5) 3) (7/10) 0 1 1 (5/2) (7/10) 0
      = .ok c9WitOutA := by
    rw [hA, cf_pier_eq _ _ _ _ _ _ _ _ _ _ _ (by norm_num) (by norm_num)]
    norm_num [c9WitOutA, Cd, CdOfV2y, DEBRIS_SPAN, max_def]
  have hcfB : calculate_forces .pier (.pierConfig (5/2)) 40 3
      (calculate_actual_debris_depth 40 (6/5) 3) (7/10) 0 1 1 (5/2) (7/10) 0
      = .ok c9WitOutB := by
    rw [hB, cf_pier_eq _ _ _ _ _ _ _ _ _ _ _ (by norm_num) (by norm_num)]
    norm_num [c9WitOutB, Cd, CdOfV2y, DEBRIS_SPAN, max_def]
  exact ⟨hcfA, hcfB,
    c9_f2_saturated_invariance .pier (.pierConfig (5/2)) 3 30 40 (6/5) 3
      (7/10) 0 1 1 (5/2) (7/10) 0 c9WitOutA c9WitOutB (by norm_num)
      (by norm_num) (by norm_num) (by norm_num) hcfA hcfB⟩

/-- C10: the drag-coefficient table is monotonically non-increasing in
the flow parameter `x = V^2 * y`; for a fixed positive depth, increasing
the velocity never increases the coefficient; and every returned value
lies in the closed interval from 1.4 to 3.4. -/
theorem c10_cd_monotone_range :
    (∀ x1 x2 : ℚ, 0 ≤ x1 → x1 ≤ x2 → CdOfV2y x2 ≤ CdOfV2y x1) ∧
    (∀ y V1 V2 : ℚ, 0 < y → 0 ≤ V1 → V1 ≤ V2 → Cd V2 y ≤ Cd V1 y) ∧
    (∀ V y : ℚ, 1.4 ≤ Cd V y ∧ Cd V y ≤ 3.4) := by
  refine ⟨fun x1 x2 _ h => CdOfV2y_antitone h,
          fun y V1 V2 hy h1 h12 => ?_, fun V y => CdOfV2y_mem⟩
  unfold Cd
  apply CdOfV2y_antitone
  have hsq : V1 ^ 2 ≤ V2 ^ 2 := by nlinarith
  exact mul_le_mul_of_nonneg_right hsq (le_of_lt hy)

/-- C10 witness: the coefficient at x = 300 does not exceed the one at
x = 50, and at V = 3, y = 8 the coefficient is inside the interval. -/
theorem c10_cd_monotone_range_witness :
    (0 : ℚ) ≤ 50 ∧ (50 : ℚ) ≤ 300 ∧ CdOfV2y 300 ≤ CdOfV2y 50 ∧
    1.4 ≤ Cd 3 8 ∧ Cd 3 8 ≤ 3.4 :=
  ⟨by norm_num, by norm_num,
   c10_cd_monotone_range.1 50 300 (by norm_num) (by norm_num),
   (c10_cd_monotone_range.2.2 3 8).1, (c10_cd_monotone_range.2.2 3 8).2⟩
